import Mathlib

/-!
# Verification of the ZDA gateway core (package `zda`)

A shallow embedding, in Lean 4, of the lifecycle and capability machinery of
the Zigbee Device Abstraction gateway (`src/gateway.go`): the node/device
store, the provider handler loop (node join/leave), the event egress queue,
the capability registry, and the `HasProductInformation` node-enumeration
callback.

Go maps are embedded as association lists, Go channels as lists, and the
mutable gateway state as an explicit `GatewayState` record threaded through
the handlers.  Helper functions whose bodies are not part of the provided
source excerpt (the store primitives, `addCapability`, the
`ZigbeeDeviceDiscovery` operations) are modelled from the specification and
marked as such in their doc comments.
-/

namespace Zda

/-- Device and internal-event identifiers.  In the source `da.Identifier` is
an interface: the gateway self device uses a bare IEEE address, node devices
use an address plus sub-device index, and the zero value of the interface is
`nil` (`nilId` here). -/
inductive Identifier where
  | nilId : Identifier
  | ieee (addr : Nat) : Identifier
  | sub (addr : Nat) (idx : Nat) : Identifier
deriving DecidableEq, Repr

/-- Capability flags (`da/capabilities`).  The source keys capabilities by
integer flags; the concrete numbering is opaque, so the five flags registered
by `New` are modelled as distinct naturals. -/
def DeviceDiscoveryFlag : Nat := 1

def EnumerateDeviceFlag : Nat := 2

def LocalDebugFlag : Nat := 3

def HasProductInformationFlag : Nat := 4

def OnOffFlag : Nat := 5

/-- `da.Device`: the value struct handed to the DA façade.  `gatewaySet`
models whether the `Gateway` back-reference field is non-nil. -/
structure Device where
  gatewaySet : Bool
  identifier : Identifier
  capabilities : List Nat
deriving DecidableEq, Repr

/-- The zero value of `da.Device` (nil gateway, nil identifier, nil
capability slice), as produced by `&internalDevice{mutex: &sync.RWMutex{}}`
in `New`. -/
def zeroDevice : Device :=
  { gatewaySet := false, identifier := Identifier.nilId, capabilities := [] }

/-- Present-bitmask flag for the manufacturer field
(`capabilities.Manufacturer`); modelled as bit 0. -/
def ManufacturerFlag : Nat := 1

/-- Present-bitmask flag for the name field (`capabilities.Name`); modelled
as bit 1. -/
def NameFlag : Nat := 2

/-- `capabilities.ProductInformation`: manufacturer, name, and the
present-bitmask telling which of the two fields is meaningful. -/
structure ProductInformation where
  manufacturer : String
  name : String
  present : Nat
deriving DecidableEq, Repr

/-- Zero value of `ProductInformation`. -/
def emptyProductInformation : ProductInformation :=
  { manufacturer := "", name := "", present := 0 }

/-- Endpoint description as stored under a node
(`zigbee.EndpointDescription`); only the in-cluster list is relevant to the
claims. -/
structure EndpointDescription where
  inClusterList : List Nat
deriving DecidableEq, Repr

/-- `internalDevice`: a device record owned by a node. -/
structure InternalDevice where
  device : Device
  endpoints : List Nat
  productInformation : ProductInformation
deriving DecidableEq, Repr

/-- `internalNode`: one per physical Zigbee node, keyed by IEEE address. -/
structure InternalNode where
  ieeeAddress : Nat
  supportsAPSAck : Bool
  endpointDescriptions : List (Nat × EndpointDescription)
  devices : List InternalDevice
deriving DecidableEq, Repr

/-- Association-list lookup, mirroring a Go map read (`m[k]` with the
`, ok` form). -/
def alookup {κ α : Type} [DecidableEq κ] (k : κ) : List (κ × α) → Option α
  | [] => none
  | (k2, v) :: rest => if k2 = k then some v else alookup k rest

/-- Association-list key removal, mirroring Go `delete(m, k)`. -/
def aremove {κ α : Type} [DecidableEq κ] (k : κ) : List (κ × α) → List (κ × α)
  | [] => []
  | (k2, v) :: rest =>
    if k2 = k then aremove k rest else (k2, v) :: aremove k rest

/-- Association-list in-place update of the value at a key, mirroring a
mutation through a Go map holding pointers. -/
def aupdate {κ α : Type} [DecidableEq κ] (k : κ) (f : α → α) :
    List (κ × α) → List (κ × α)
  | [] => []
  | (k2, v) :: rest =>
    if k2 = k then (k2, f v) :: aupdate k f rest else (k2, v) :: aupdate k f rest

/-- Internal events published on the callback bus. -/
inductive InternalEvent where
  | nodeJoin (ieee : Nat) : InternalEvent
  | nodeLeave (ieee : Nat) : InternalEvent
deriving DecidableEq, Repr

/-- Primitive actions of the provider handler, recorded in execution order
so that ordering claims are visible in the model. -/
inductive Action where
  | addedNode (ieee : Nat) : Action
  | addedDevice (id : Identifier) : Action
  | publishedEvent (e : InternalEvent) : Action
  | removedDevice (id : Identifier) : Action
  | removedNode (ieee : Nat) : Action
deriving DecidableEq, Repr

/-- The mutable state of a `ZigbeeGateway`: the self device, the node store,
the global identifier-to-device map, and the log of internal events
published on the callback bus. -/
structure GatewayState where
  selfDevice : Device
  nodes : List (Nat × InternalNode)
  deviceMap : List (Identifier × InternalDevice)
  published : List InternalEvent
deriving DecidableEq, Repr

/-- State of a `ZigbeeGateway` immediately after `New`: empty stores and a
zero-valued self device. -/
def newGatewayState : GatewayState :=
  { selfDevice := zeroDevice, nodes := [], deviceMap := [], published := [] }

/-- `ZigbeeGateway.Self`: returns the value copy `z.self.device`. -/
def zdaSelf (g : GatewayState) : Device :=
  g.selfDevice

/-- `ZigbeeGateway.Start`, restricted to its effect on gateway state: the
self device's gateway back-reference, identifier and capability list are
populated from the provider's adapter node, then the adapter endpoint is
registered (`registerResult` is that provider call's outcome, returned to
the caller). -/
def startGateway (g : GatewayState) (adapterIeee : Nat)
    (registerResult : Option String) : GatewayState × Option String :=
  let g2 := { g with
    selfDevice :=
      { gatewaySet := true
        identifier := Identifier.ieee adapterIeee
        capabilities := [DeviceDiscoveryFlag] } }
  (g2, registerResult)

/-- `ZigbeeGateway.getNode`. -/
def getNode (g : GatewayState) (ieee : Nat) : Option InternalNode :=
  alookup ieee g.nodes

/-- Modelled from the spec: `ZigbeeGateway.addNode` (store primitive not in
the excerpt) — create a fresh node with no devices and register it under its
IEEE address. -/
def addNode (g : GatewayState) (ieee : Nat) : GatewayState × InternalNode :=
  let n : InternalNode :=
    { ieeeAddress := ieee, supportsAPSAck := false
      endpointDescriptions := [], devices := [] }
  ({ g with nodes := g.nodes ++ [(ieee, n)] }, n)

/-- Modelled from the spec: `internalNode.nextDeviceIdentifier` (not in the
excerpt) — an identifier composed of the node IEEE address plus the
sub-device index. -/
def nextDeviceIdentifier (n : InternalNode) : Identifier :=
  Identifier.sub n.ieeeAddress n.devices.length

/-- The fresh capability-less internal device allocated by `addDevice`. -/
def newInternalDevice (id : Identifier) : InternalDevice :=
  { device := { gatewaySet := true, identifier := id, capabilities := [] }
    endpoints := []
    productInformation := emptyProductInformation }

/-- Modelled from the spec: `ZigbeeGateway.addDevice` (store primitive not
in the excerpt) — append a fresh capability-less device to the owning node's
device list and register the identifier in the global map. -/
def addDevice (g : GatewayState) (id : Identifier) (ieee : Nat) : GatewayState :=
  { g with
    nodes := aupdate ieee
      (fun n => { n with devices := n.devices ++ [newInternalDevice id] }) g.nodes
    deviceMap := g.deviceMap ++ [(id, newInternalDevice id)] }

/-- Modelled from the spec: `ZigbeeGateway.removeDevice` (store primitive
not in the excerpt) — unregister the identifier from the global map and drop
the device from its owning node's list. -/
def removeDevice (g : GatewayState) (id : Identifier) : GatewayState :=
  { g with
    deviceMap := aremove id g.deviceMap
    nodes := g.nodes.map (fun p =>
      (p.1, { p.2 with
        devices := p.2.devices.filter (fun d => d.device.identifier ≠ id) })) }

/-- Modelled from the spec: `ZigbeeGateway.removeNode` (store primitive not
in the excerpt) — drop the node from the store. -/
def removeNode (g : GatewayState) (ieee : Nat) : GatewayState :=
  { g with nodes := aremove ieee g.nodes }

/-- Publication of an internal event on the callback bus
(`z.callbacks.Call`), recorded in the published log. -/
def publishInternal (g : GatewayState) (e : InternalEvent) : GatewayState :=
  { g with published := g.published ++ [e] }

/-- The `zigbee.NodeJoinEvent` arm of `ZigbeeGateway.providerHandler`:
ensure the node exists; if its device list is empty, allocate the initial
device and publish `internalNodeJoin`.  Returns the new state together with
the trace of primitive actions in execution order. -/
def handleNodeJoin (g : GatewayState) (ieee : Nat) : GatewayState × List Action :=
  match getNode g ieee with
  | some n =>
    if n.devices.length = 0 then
      let did := nextDeviceIdentifier n
      let g1 := addDevice g did ieee
      let g2 := publishInternal g1 (InternalEvent.nodeJoin ieee)
      (g2, [Action.addedDevice did, Action.publishedEvent (InternalEvent.nodeJoin ieee)])
    else
      (g, [])
  | none =>
    let gn := addNode g ieee
    let n := gn.2
    if n.devices.length = 0 then
      let did := nextDeviceIdentifier n
      let g1 := addDevice gn.1 did ieee
      let g2 := publishInternal g1 (InternalEvent.nodeJoin ieee)
      (g2, [Action.addedNode ieee, Action.addedDevice did,
            Action.publishedEvent (InternalEvent.nodeJoin ieee)])
    else
      (gn.1, [Action.addedNode ieee])

/-- The `zigbee.NodeLeaveEvent` arm of `ZigbeeGateway.providerHandler`: if
the node is known, publish `internalNodeLeave`, remove each of its devices,
then remove the node; otherwise do nothing.  Returns the new state together
with the trace of primitive actions in execution order. -/
def handleNodeLeave (g : GatewayState) (ieee : Nat) : GatewayState × List Action :=
  match getNode g ieee with
  | some n =>
    let g1 := publishInternal g (InternalEvent.nodeLeave ieee)
    let g2 := n.devices.foldl (fun acc d => removeDevice acc d.device.identifier) g1
    let g3 := removeNode g2 ieee
    (g3, Action.publishedEvent (InternalEvent.nodeLeave ieee) ::
      (n.devices.map (fun d => Action.removedDevice d.device.identifier) ++
        [Action.removedNode ieee]))
  | none => (g, [])

/-- `ZigbeeGateway.Devices`: the self device followed by a value copy of
every device of every node currently in the store, in store order. -/
def zdaDevices (g : GatewayState) : List Device :=
  g.nodes.foldl
    (fun acc p => p.2.devices.foldl (fun acc2 d => acc2 ++ [d.device]) acc)
    [g.selfDevice]

/-! ## Event egress queue

The `events` channel is created in `New` with `make(chan interface{}, 100)`;
`sendEvent` does a non-blocking send (`select` with `default`), printing a
warning and dropping the event when the buffer is full; `ReadEvent` receives
from the channel.  The buffered channel is embedded as a list whose head is
the oldest element. -/

/-- Capacity of the egress queue (`make(chan interface{}, 100)`). -/
def egressCapacity : Nat := 100

/-- `ZigbeeGateway.sendEvent`: non-blocking enqueue.  Returns the new queue
and whether the overflow warning was printed (the Go function returns
nothing to its caller). -/
def sendEvent {α : Type} (q : List α) (e : α) : List α × Bool :=
  if q.length < egressCapacity then (q ++ [e], false) else (q, true)

/-- `ZigbeeGateway.ReadEvent`, restricted to the case where an event is
available: receive the oldest queued event. -/
def readEvent {α : Type} : List α → Option (α × List α)
  | [] => none
  | e :: rest => some (e, rest)

/-! ## Capability registry -/

/-- The five capability implementations installed by `New`. -/
inductive CapImpl where
  | deviceDiscovery : CapImpl
  | enumerateDevice : CapImpl
  | localDebug : CapImpl
  | hasProductInformation : CapImpl
  | onOff : CapImpl
deriving DecidableEq, Repr

/-- The `capabilities` map as populated by `New`. -/
def newCapabilities : List (Nat × CapImpl) :=
  [(DeviceDiscoveryFlag, CapImpl.deviceDiscovery),
   (EnumerateDeviceFlag, CapImpl.enumerateDevice),
   (LocalDebugFlag, CapImpl.localDebug),
   (HasProductInformationFlag, CapImpl.hasProductInformation),
   (OnOffFlag, CapImpl.onOff)]

/-- `ZigbeeGateway.Capability`: a plain map read, so a flag that was never
registered yields the zero value of `interface\x7b\x7d`, i.e. `nil`
(`none` here); the signature carries no error channel. -/
def zdaCapability (c : Nat) : Option CapImpl :=
  alookup c newCapabilities

/-! ## HasProductInformation

`ZigbeeHasProductInformation.NodeEnumerationCallback` walks the node's
devices; for a device with an endpoint advertising the Basic cluster
(0x0000) it reads attributes 0x0004/0x0005 under `retry.Retry` and updates
`productInformation` per returned record, then attaches the capability.
The ZCL read is non-deterministic network input, so it enters the model as
an oracle: the list of outcomes of the successive attempts the retry helper
makes. -/

/-- One `ReadAttributes` record (`global.ReadAttributeResponseRecord`):
attribute identifier, ZCL status, and the decoded string value
(`DataTypeValue.Value.(string)`). -/
structure AttributeRecord where
  identifier : Nat
  status : Nat
  value : String
deriving DecidableEq, Repr

/-- Outcome of one `ReadAttributes` attempt: the records on success, or the
error. -/
def ReadAttempt : Type := Except String (List AttributeRecord)

/-- `isClusterIdInSlice` (helper not in the excerpt; modelled from its use):
membership of a cluster id in a cluster list. -/
def isClusterIdInSlice (haystack : List Nat) (clusterId : Nat) : Bool :=
  haystack.contains clusterId

/-- Go map read with zero-value default: a missing endpoint yields the zero
`EndpointDescription` (empty in-cluster list), exactly as
`iNode.endpointDescriptions[endpoint]` does. -/
def endpointDescription (n : InternalNode) (ep : Nat) : EndpointDescription :=
  match alookup ep n.endpointDescriptions with
  | some ed => ed
  | none => { inClusterList := [] }

/-- The endpoint-search loop of the callback: the first of the device's
endpoints whose in-cluster list contains the Basic cluster 0x0000. -/
def findBasicEndpoint (n : InternalNode) (d : InternalDevice) : Option Nat :=
  d.endpoints.find? (fun ep =>
    isClusterIdInSlice (endpointDescription n ep).inClusterList 0x0000)

/-- Bitwise AND-NOT on the present bitmask: Go `present &= ^flag` at the
64-bit width of the flag type. -/
def maskClear (present flag : Nat) : Nat :=
  present &&& ((2 ^ 64 - 1) ^^^ flag)

/-- The per-record `switch` of the callback (lines 513–531 of
`gateway.go`): on status 0 store the string and set the present-bit, on a
non-zero status clear the string and the bit; records for other attributes
are ignored. -/
def applyRecord (pi : ProductInformation) (r : AttributeRecord) :
    ProductInformation :=
  if r.identifier = 0x0004 then
    if r.status = 0 then
      { pi with manufacturer := r.value, present := pi.present ||| ManufacturerFlag }
    else
      { pi with manufacturer := "", present := maskClear pi.present ManufacturerFlag }
  else if r.identifier = 0x0005 then
    if r.status = 0 then
      { pi with name := r.value, present := pi.present ||| NameFlag }
    else
      { pi with name := "", present := maskClear pi.present NameFlag }
  else
    pi

/-- The record loop of the callback: fold `applyRecord` over the returned
records in order. -/
def applyRecords (pi : ProductInformation) (rs : List AttributeRecord) :
    ProductInformation :=
  rs.foldl applyRecord pi

/-- `retry.Retry` around the `ReadAttributes` closure, driven by the oracle
of attempt outcomes: the device's product information is updated only by a
successful attempt (the mutation block is guarded by `err == nil`), and the
first success stops the retries; if every attempt fails the state is left
alone and the last error is returned. -/
def retryReadApply (pi : ProductInformation) :
    List ReadAttempt → ProductInformation × Option String
  | [] => (pi, none)
  | Except.ok rs :: _ => (applyRecords pi rs, none)
  | Except.error e :: rest =>
    match rest with
    | [] => (pi, some e)
    | _ :: _ => retryReadApply pi rest

/-- Modelled from the spec: `addCapability` (helper not in the excerpt) —
attach a capability flag to a device, idempotently. -/
def addCapability (d : Device) (c : Nat) : Device :=
  if c ∈ d.capabilities then d else { d with capabilities := d.capabilities ++ [c] }

/-- The per-device body of the enumeration callback: if the device has an
endpoint advertising the Basic cluster, run the retried attribute read
(logging, not propagating, its error) and attach
`HasProductInformationFlag`; otherwise leave the device alone. -/
def enumerateDeviceProductInfo (n : InternalNode) (d : InternalDevice)
    (attempts : List ReadAttempt) : InternalDevice :=
  match findBasicEndpoint n d with
  | some _ =>
    let r := retryReadApply d.productInformation attempts
    { d with
      productInformation := r.1
      device := addCapability d.device HasProductInformationFlag }
  | none => d

/-- The device loop of the callback, with one oracle attempt list per
device. -/
def enumerateDevicesProductInfo (n : InternalNode) :
    List InternalDevice → List (List ReadAttempt) → List InternalDevice
  | [], _ => []
  | d :: ds, [] =>
    enumerateDeviceProductInfo n d [] :: enumerateDevicesProductInfo n ds []
  | d :: ds, o :: os =>
    enumerateDeviceProductInfo n d o :: enumerateDevicesProductInfo n ds os

/-- `ZigbeeHasProductInformation.NodeEnumerationCallback`: process every
device of the node and return `nil` (`none`) — read failures are logged
inside, never returned. -/
def nodeEnumerationCallback (n : InternalNode)
    (oracles : List (List ReadAttempt)) : InternalNode × Option String :=
  ({ n with devices := enumerateDevicesProductInfo n n.devices oracles }, none)

/-! ## DeviceDiscovery

The implementation file of `ZigbeeDeviceDiscovery` is not part of the
excerpt (only its tests are); the operations are modelled from the
specification, §4.F, and agree with the behaviour the tests
`TestZigbeeDeviceDiscovery_Allow` / `_Deny` assert. -/

/-- Errors surfaced by the discovery operations: the not-self rejection or
a provider error forwarded verbatim. -/
inductive DiscErr where
  | notSelfDevice : DiscErr
  | provider (msg : String) : DiscErr
deriving DecidableEq, Repr

/-- Externally visible discovery events on the egress queue. -/
inductive DiscEvent where
  | discoveryAllowed : DiscEvent
  | discoveryDenied : DiscEvent
deriving DecidableEq, Repr

/-- Mutable state of `ZigbeeDeviceDiscovery`: the discovering flag and the
absolute expiry time of the allow window. -/
structure DiscoveryState where
  discovering : Bool
  expiry : Nat
deriving DecidableEq, Repr

/-- Modelled from the spec: `ZigbeeDeviceDiscovery.Allow` — reject a
non-self device; call provider `PermitJoin` (outcome `permitJoinResult`); on
provider error return it verbatim without touching state; on success mark
discovering, extend the expiry to the later of the old and new expiries, and
emit `DeviceDiscoveryAllowed`. -/
def discoveryAllow (s : DiscoveryState) (selfId devId : Identifier)
    (now duration : Nat) (permitJoinResult : Option String) :
    DiscoveryState × Option DiscErr × List DiscEvent :=
  if devId = selfId then
    match permitJoinResult with
    | some e => (s, some (DiscErr.provider e), [])
    | none =>
      ({ discovering := true, expiry := max s.expiry (now + duration) },
       none, [DiscEvent.discoveryAllowed])
  else
    (s, some DiscErr.notSelfDevice, [])

/-- Modelled from the spec: `ZigbeeDeviceDiscovery.Deny` — reject a
non-self device; call provider `DenyJoin` (outcome `denyJoinResult`); on
provider error return it verbatim without touching state; on success clear
the discovering flag and the expiry and emit `DeviceDiscoveryDenied`. -/
def discoveryDeny (s : DiscoveryState) (selfId devId : Identifier)
    (denyJoinResult : Option String) :
    DiscoveryState × Option DiscErr × List DiscEvent :=
  if devId = selfId then
    match denyJoinResult with
    | some e => (s, some (DiscErr.provider e), [])
    | none =>
      ({ discovering := false, expiry := 0 }, none, [DiscEvent.discoveryDenied])
  else
    (s, some DiscErr.notSelfDevice, [])

/-! ## Concrete example values used to witness the theorems below -/

/-- A product-information record with stale contents, for exercising the
record handler. -/
def piW : ProductInformation :=
  { manufacturer := "", name := "old", present := 3 }

/-- A successful manufacturer (0x0004) attribute record. -/
def recManufacturerOk : AttributeRecord :=
  { identifier := 0x0004, status := 0, value := "Acme" }

/-- A failed name (0x0005) attribute record. -/
def recNameFailed : AttributeRecord :=
  { identifier := 0x0005, status := 1, value := "" }

/-- A device whose endpoint 1 is assigned to it. -/
def devBasicW : InternalDevice :=
  { device := { gatewaySet := true, identifier := Identifier.sub 7 0, capabilities := [] }
    endpoints := [1]
    productInformation := emptyProductInformation }

/-- A node whose endpoint 1 advertises the Basic (0x0000) and OnOff
(0x0006) clusters and which owns `devBasicW`. -/
def nodeBasicW : InternalNode :=
  { ieeeAddress := 7, supportsAPSAck := false
    endpointDescriptions := [(1, { inClusterList := [0x0000, 0x0006] })]
    devices := [devBasicW] }

/-- An attribute read that fails on every attempt. -/
def attemptsFailW : List ReadAttempt :=
  [Except.error "read timeout", Except.error "read timeout"]

/-- The node stored for IEEE address 7 after a first `NodeJoinEvent` on a
fresh gateway. -/
def nodeJoinedW : InternalNode :=
  { ieeeAddress := 7, supportsAPSAck := false, endpointDescriptions := []
    devices := [newInternalDevice (Identifier.sub 7 0)] }

/-- Gateway state after a first `NodeJoinEvent` for IEEE address 7. -/
def gJoinedW : GatewayState :=
  (handleNodeJoin newGatewayState 7).1

/-- Gateway state holding a node for IEEE address 7 with an empty device
list. -/
def gEmptyNodeW : GatewayState :=
  { selfDevice := zeroDevice
    nodes := [(7, { ieeeAddress := 7, supportsAPSAck := false
                    endpointDescriptions := [], devices := [] })]
    deviceMap := [], published := [] }

/-- The empty-device node stored in `gEmptyNodeW`. -/
def nodeEmptyW : InternalNode :=
  { ieeeAddress := 7, supportsAPSAck := false
    endpointDescriptions := [], devices := [] }

/-! ## Association-list lemmas -/

theorem alookup_append {κ α : Type} [DecidableEq κ] (k : κ) (a b : List (κ × α)) :
    alookup k (a ++ b) =
      match alookup k a with
      | some v => some v
      | none => alookup k b := by
  induction a with
  | nil => simp [alookup]
  | cons p rest ih =>
    by_cases hk : p.1 = k
    · simp [alookup, hk]
    · simp [alookup, hk, ih]

theorem alookup_aremove_self {κ α : Type} [DecidableEq κ] (k : κ)
    (m : List (κ × α)) : alookup k (aremove k m) = none := by
  induction m with
  | nil => simp [aremove, alookup]
  | cons p rest ih =>
    by_cases hk : p.1 = k
    · simpa [aremove, hk] using ih
    · simpa [aremove, alookup, hk] using ih

theorem alookup_aremove_none {κ α : Type} [DecidableEq κ] (k k2 : κ)
    (m : List (κ × α)) (h : alookup k m = none) :
    alookup k (aremove k2 m) = none := by
  induction m with
  | nil => simpa [aremove] using h
  | cons p rest ih =>
    by_cases h3 : p.1 = k
    · simp [alookup, h3] at h
    · simp only [alookup, h3, if_false, ite_false, if_neg (by exact h3)] at h
      by_cases h32 : p.1 = k2
      · simpa [aremove, h32] using ih h
      · simpa [aremove, alookup, h32, h3] using ih h

theorem alookup_aupdate_self {κ α : Type} [DecidableEq κ] (k : κ) (f : α → α)
    (m : List (κ × α)) :
    alookup k (aupdate k f m) = Option.map f (alookup k m) := by
  induction m with
  | nil => simp [aupdate, alookup]
  | cons p rest ih =>
    by_cases hk : p.1 = k
    · simp [aupdate, alookup, hk]
    · simpa [aupdate, alookup, hk] using ih

/-! ## Gateway-state lemmas -/

theorem getNode_publishInternal (g : GatewayState) (e : InternalEvent)
    (ieee : Nat) : getNode (publishInternal g e) ieee = getNode g ieee :=
  rfl

theorem getNode_addDevice_self (g : GatewayState) (id : Identifier)
    (ieee : Nat) :
    getNode (addDevice g id ieee) ieee =
      Option.map (fun n => { n with devices := n.devices ++ [newInternalDevice id] })
        (getNode g ieee) :=
  alookup_aupdate_self ieee _ g.nodes

theorem foldRemove_published (ds : List InternalDevice) (g : GatewayState) :
    (ds.foldl (fun acc d => removeDevice acc d.device.identifier) g).published
      = g.published := by
  induction ds generalizing g with
  | nil => rfl
  | cons d rest ih =>
    simp only [List.foldl_cons]
    rw [ih]
    rfl

theorem foldRemove_deviceMap_none (ds : List InternalDevice) (g : GatewayState)
    (id : Identifier) (h : alookup id g.deviceMap = none) :
    alookup id
      ((ds.foldl (fun acc d => removeDevice acc d.device.identifier) g).deviceMap)
      = none := by
  induction ds generalizing g with
  | nil => exact h
  | cons d rest ih =>
    simp only [List.foldl_cons]
    exact ih _ (alookup_aremove_none id d.device.identifier g.deviceMap h)

theorem foldRemove_all_removed (ds : List InternalDevice) (g : GatewayState) :
    ∀ d ∈ ds,
      alookup d.device.identifier
        ((ds.foldl (fun acc d => removeDevice acc d.device.identifier) g).deviceMap)
        = none := by
  induction ds generalizing g with
  | nil =>
    intro d hd
    cases hd
  | cons d0 rest ih =>
    intro d hd
    simp only [List.foldl_cons]
    rcases List.mem_cons.mp hd with h1 | h2
    · subst h1
      exact foldRemove_deviceMap_none rest _ d.device.identifier
        (alookup_aremove_self d.device.identifier g.deviceMap)
    · exact ih _ d h2

theorem getNode_addNode_self (g : GatewayState) (ieee : Nat)
    (hg : getNode g ieee = none) :
    getNode (addNode g ieee).1 ieee = some (addNode g ieee).2 := by
  unfold getNode addNode
  unfold getNode at hg
  rw [alookup_append, hg]
  simp [alookup]

theorem handleNodeJoin_post (g : GatewayState) (ieee : Nat) :
    ∃ n, getNode (handleNodeJoin g ieee).1 ieee = some n
      ∧ n.devices.length ≠ 0 := by
  cases hg : getNode g ieee with
  | some n =>
    by_cases hd : n.devices.length = 0
    · refine ⟨{ n with
          devices := n.devices ++ [newInternalDevice (nextDeviceIdentifier n)] },
        ?_, by simp⟩
      simp only [handleNodeJoin, hg, hd, if_true]
      rw [getNode_publishInternal, getNode_addDevice_self, hg]
      rfl
    · refine ⟨n, ?_, hd⟩
      simp only [handleNodeJoin, hg, hd, if_false]
  | none =>
    refine ⟨{ (addNode g ieee).2 with
        devices := (addNode g ieee).2.devices ++
          [newInternalDevice (nextDeviceIdentifier (addNode g ieee).2)] },
      ?_, by simp⟩
    have hlen : (addNode g ieee).2.devices.length = 0 := rfl
    simp only [handleNodeJoin, hg, hlen, if_true]
    rw [getNode_publishInternal, getNode_addDevice_self,
      getNode_addNode_self g ieee hg]
    rfl

theorem mem_addCapability (d : Device) (c : Nat) :
    c ∈ (addCapability d c).capabilities := by
  unfold addCapability
  by_cases hc : c ∈ d.capabilities
  · simp [hc]
  · simp [hc]

/-! ## Bitmask lemmas -/

theorem testBit_lor_flag (p flag bit : Nat) (h : Nat.testBit flag bit = true) :
    Nat.testBit (p ||| flag) bit = true := by
  rw [Nat.testBit_lor, h, Bool.or_true]

theorem testBit_maskClear (p flag bit : Nat)
    (h : Nat.testBit ((2 ^ 64 - 1) ^^^ flag) bit = false) :
    Nat.testBit (maskClear p flag) bit = false := by
  unfold maskClear
  rw [Nat.testBit_land, h, Bool.and_false]

/-! ## Devices snapshot lemmas -/

theorem devices_inner_fold (devs : List InternalDevice) (acc : List Device) :
    devs.foldl (fun a d => a ++ [d.device]) acc
      = acc ++ devs.map (fun d => d.device) := by
  induction devs generalizing acc with
  | nil => simp
  | cons d rest ih =>
    simp [List.foldl_cons, ih]

theorem devices_outer_fold (ns : List (Nat × InternalNode)) (acc : List Device) :
    ns.foldl
      (fun acc2 p => p.2.devices.foldl (fun a d => a ++ [d.device]) acc2) acc
      = acc ++ ns.flatMap (fun p => p.2.devices.map (fun d => d.device)) := by
  induction ns generalizing acc with
  | nil => simp
  | cons p rest ih =>
    rw [List.foldl_cons, devices_inner_fold, ih]
    simp [List.append_assoc]

/-! ## The claims -/

/-- C1: in the product-information read of the node-enumeration callback,
each returned attribute record is handled per attribute: a record with
status 0 stores the returned string and sets the matching present-bit
(Manufacturer for 0x0004, Name for 0x0005); a record with non-zero status
clears the field and the bit; and a successful read attempt applies the
returned records to the stored product information. -/
theorem claim_C1_product_info_record_handling (pi : ProductInformation)
    (r : AttributeRecord) :
    (r.identifier = 0x0004 → r.status = 0 →
      (applyRecord pi r).manufacturer = r.value
      ∧ Nat.testBit (applyRecord pi r).present 0 = true)
    ∧ (r.identifier = 0x0004 → r.status ≠ 0 →
      (applyRecord pi r).manufacturer = ""
      ∧ Nat.testBit (applyRecord pi r).present 0 = false)
    ∧ (r.identifier = 0x0005 → r.status = 0 →
      (applyRecord pi r).name = r.value
      ∧ Nat.testBit (applyRecord pi r).present 1 = true)
    ∧ (r.identifier = 0x0005 → r.status ≠ 0 →
      (applyRecord pi r).name = ""
      ∧ Nat.testBit (applyRecord pi r).present 1 = false)
    ∧ (∀ rs rest, retryReadApply pi (Except.ok rs :: rest)
        = (applyRecords pi rs, none)) := by
  refine ⟨?_, ?_, ?_, ?_, fun rs rest => rfl⟩
  · intro hid hst
    unfold applyRecord
    rw [if_pos hid, if_pos hst]
    exact ⟨rfl, testBit_lor_flag _ _ _ (by decide)⟩
  · intro hid hst
    unfold applyRecord
    rw [if_pos hid, if_neg hst]
    exact ⟨rfl, testBit_maskClear _ _ _ (by decide)⟩
  · intro hid hst
    unfold applyRecord
    rw [if_neg (by omega), if_pos hid, if_pos hst]
    exact ⟨rfl, testBit_lor_flag _ _ _ (by decide)⟩
  · intro hid hst
    unfold applyRecord
    rw [if_neg (by omega), if_pos hid, if_neg hst]
    exact ⟨rfl, testBit_maskClear _ _ _ (by decide)⟩

/-- C1 witness: concrete success for attribute 0x0004 and concrete failure
for attribute 0x0005. -/
theorem claim_C1_witness :
    (applyRecord piW recManufacturerOk).manufacturer = "Acme"
    ∧ Nat.testBit (applyRecord piW recManufacturerOk).present 0 = true
    ∧ (applyRecord piW recNameFailed).name = ""
    ∧ Nat.testBit (applyRecord piW recNameFailed).present 1 = false := by
  have ha := (claim_C1_product_info_record_handling piW recManufacturerOk).1 rfl rfl
  have hb := (claim_C1_product_info_record_handling piW recNameFailed).2.2.2.1
    rfl (by decide)
  exact ⟨ha.1, ha.2, hb.1, hb.2⟩

/-- C2: for a device with an endpoint advertising the Basic cluster, the
`HasProductInformation` capability is attached whatever the outcome of the
attribute read; the callback never returns an error; and a failed attribute
leaves its field cleared with its present-bit unset. -/
theorem claim_C2_partial_enumeration (n : InternalNode) (d : InternalDevice)
    (ep : Nat) (attempts : List ReadAttempt)
    (h : findBasicEndpoint n d = some ep) :
    HasProductInformationFlag ∈
      (enumerateDeviceProductInfo n d attempts).device.capabilities
    ∧ (∀ oracles, (nodeEnumerationCallback n oracles).2 = none)
    ∧ (∀ pi (r : AttributeRecord), r.identifier = 0x0005 → r.status ≠ 0 →
        (applyRecord pi r).name = ""
        ∧ Nat.testBit (applyRecord pi r).present 1 = false) := by
  refine ⟨?_, fun _ => rfl, ?_⟩
  · unfold enumerateDeviceProductInfo
    rw [h]
    exact mem_addCapability _ _
  · intro pi r hid hst
    unfold applyRecord
    rw [if_neg (by omega), if_pos hid, if_neg hst]
    exact ⟨rfl, testBit_maskClear _ _ _ (by decide)⟩

/-- C2 witness: the capability is attached even when every read attempt
fails. -/
theorem claim_C2_witness :
    HasProductInformationFlag ∈
      (enumerateDeviceProductInfo nodeBasicW devBasicW attemptsFailW).device.capabilities :=
  (claim_C2_partial_enumeration nodeBasicW devBasicW 1 attemptsFailW (by decide)).1

/-- C3: processing a `NodeJoinEvent` is idempotent for device creation: a
known node with devices is left untouched with nothing published; the
initial device is allocated and `NodeJoin` published exactly when the
device list is empty; and re-delivery right after any join is a no-op. -/
theorem claim_C3_node_join_idempotent (g : GatewayState) (ieee : Nat) :
    (∀ n, getNode g ieee = some n → n.devices ≠ [] →
      handleNodeJoin g ieee = (g, []))
    ∧ (∀ n, getNode g ieee = some n → n.devices = [] →
      (handleNodeJoin g ieee).2 =
        [Action.addedDevice (Identifier.sub n.ieeeAddress 0),
         Action.publishedEvent (InternalEvent.nodeJoin ieee)]
      ∧ (handleNodeJoin g ieee).1.published =
          g.published ++ [InternalEvent.nodeJoin ieee])
    ∧ handleNodeJoin (handleNodeJoin g ieee).1 ieee
        = ((handleNodeJoin g ieee).1, []) := by
  refine ⟨?_, ?_, ?_⟩
  · intro n hg hne
    have hd : ¬ n.devices.length = 0 := by
      simpa [List.length_eq_zero] using hne
    simp only [handleNodeJoin, hg, hd, if_false]
  · intro n hg he
    have hd : n.devices.length = 0 := by simp [he]
    constructor
    · simp only [handleNodeJoin, hg, hd, if_true]
      simp [nextDeviceIdentifier, he]
    · simp only [handleNodeJoin, hg, hd, if_true]
      simp [publishInternal, addDevice]
  · obtain ⟨n, hn, hd⟩ := handleNodeJoin_post g ieee
    set g1 := (handleNodeJoin g ieee).1 with hg1
    simp only [handleNodeJoin, hn, hd, if_false]

/-- C3 witness: the join of a fresh node allocates the device and publishes
`NodeJoin`; an immediately re-delivered join is an identity. -/
theorem claim_C3_witness :
    handleNodeJoin gJoinedW 7 = (gJoinedW, [])
    ∧ (handleNodeJoin gEmptyNodeW 7).2 =
        [Action.addedDevice (Identifier.sub 7 0),
         Action.publishedEvent (InternalEvent.nodeJoin 7)] := by
  constructor
  · exact (claim_C3_node_join_idempotent gJoinedW 7).1 nodeJoinedW
      (by decide) (by decide)
  · exact ((claim_C3_node_join_idempotent gEmptyNodeW 7).2.1 nodeEmptyW
      (by decide) (by decide)).1

/-- C4: a `NodeLeaveEvent` for a known node publishes `NodeLeave`, removes
every child device from the device store, then removes the node, in that
order; for an unknown address nothing is published and nothing changes. -/
theorem claim_C4_node_leave (g : GatewayState) (ieee : Nat) :
    (∀ n, getNode g ieee = some n →
      (handleNodeLeave g ieee).2 =
        Action.publishedEvent (InternalEvent.nodeLeave ieee) ::
          (n.devices.map (fun d => Action.removedDevice d.device.identifier) ++
            [Action.removedNode ieee])
      ∧ (handleNodeLeave g ieee).1.published =
          g.published ++ [InternalEvent.nodeLeave ieee]
      ∧ getNode (handleNodeLeave g ieee).1 ieee = none
      ∧ ∀ d ∈ n.devices,
          alookup d.device.identifier (handleNodeLeave g ieee).1.deviceMap = none)
    ∧ (getNode g ieee = none → handleNodeLeave g ieee = (g, [])) := by
  constructor
  · intro n hg
    refine ⟨?_, ?_, ?_, ?_⟩
    · simp only [handleNodeLeave, hg]
    · simp only [handleNodeLeave, hg]
      show (List.foldl (fun acc d => removeDevice acc d.device.identifier)
          (publishInternal g (InternalEvent.nodeLeave ieee)) n.devices).published
        = g.published ++ [InternalEvent.nodeLeave ieee]
      rw [foldRemove_published]
      rfl
    · simp only [handleNodeLeave, hg]
      exact alookup_aremove_self ieee _
    · intro d hd
      simp only [handleNodeLeave, hg]
      show alookup d.device.identifier
          (List.foldl (fun acc d => removeDevice acc d.device.identifier)
            (publishInternal g (InternalEvent.nodeLeave ieee)) n.devices).deviceMap
        = none
      exact foldRemove_all_removed n.devices _ d hd
  · intro hg
    simp only [handleNodeLeave, hg]

/-- C4 witness: leaving after a concrete join empties the store. -/
theorem claim_C4_witness :
    getNode (handleNodeLeave gJoinedW 7).1 7 = none
    ∧ alookup (Identifier.sub 7 0) (handleNodeLeave gJoinedW 7).1.deviceMap
        = none := by
  have h := (claim_C4_node_leave gJoinedW 7).1 nodeJoinedW (by decide)
  exact ⟨h.2.2.1, h.2.2.2 (newInternalDevice (Identifier.sub 7 0)) (by decide)⟩

/-- C5: `Devices` returns exactly the self device followed by a value copy
of every device of every currently-present node, each under its owning
node. -/
theorem claim_C5_devices_snapshot (g : GatewayState) :
    zdaDevices g = zdaSelf g ::
      g.nodes.flatMap (fun p => p.2.devices.map (fun d => d.device))
    ∧ ∀ dev, dev ∈ zdaDevices g ↔
        dev = zdaSelf g ∨ ∃ p ∈ g.nodes, ∃ idev ∈ p.2.devices, idev.device = dev := by
  have h1 : zdaDevices g = zdaSelf g ::
      g.nodes.flatMap (fun p => p.2.devices.map (fun d => d.device)) := by
    unfold zdaDevices zdaSelf
    rw [devices_outer_fold]
    rfl
  refine ⟨h1, fun dev => ?_⟩
  rw [h1]
  simp [List.mem_flatMap, List.mem_map]

/-- C6: when the provider call of a discovery `Allow` or `Deny` on the self
device fails, the discovery state is left unchanged and the provider error
is returned verbatim. -/
theorem claim_C6_discovery_provider_error (s : DiscoveryState)
    (selfId : Identifier) (now duration : Nat) (e : String) :
    discoveryAllow s selfId selfId now duration (some e)
      = (s, some (DiscErr.provider e), [])
    ∧ discoveryDeny s selfId selfId (some e)
      = (s, some (DiscErr.provider e), []) := by
  constructor <;> simp [discoveryAllow, discoveryDeny]

/-- C7: the egress queue holds at most 100 events; a non-full enqueue
appends at the back without blocking, a full enqueue drops the event with
only the warning flag raised, and dequeue takes from the front. -/
theorem claim_C7_egress_queue :
    (∀ (α : Type) (q : List α) (e : α), q.length < egressCapacity →
      sendEvent q e = (q ++ [e], false))
    ∧ (∀ (α : Type) (q : List α) (e : α), ¬ q.length < egressCapacity →
      sendEvent q e = (q, true))
    ∧ (∀ (α : Type) (q : List α) (e : α), q.length ≤ egressCapacity →
      (sendEvent q e).1.length ≤ egressCapacity)
    ∧ (∀ (α : Type) (x : α) (rest : List α),
      readEvent (x :: rest) = some (x, rest)) := by
  refine ⟨?_, ?_, ?_, fun α x rest => rfl⟩
  · intro α q e h
    simp [sendEvent, h]
  · intro α q e h
    simp [sendEvent, h]
  · intro α q e h
    unfold sendEvent egressCapacity at *
    split_ifs with hlt
    · simp only [List.length_append, List.length_singleton]
      omega
    · simpa using h

/-- C7 witness: concrete non-full and full enqueues and a dequeue. -/
theorem claim_C7_witness :
    sendEvent ([] : List Nat) 7 = ([7], false)
    ∧ sendEvent (List.replicate 100 0) 7 = (List.replicate 100 0, true)
    ∧ readEvent [3, 4] = some (3, [4]) := by
  refine ⟨?_, ?_, ?_⟩
  · exact claim_C7_egress_queue.1 Nat [] 7 (by decide)
  · exact claim_C7_egress_queue.2.1 Nat (List.replicate 100 0) 7 (by decide)
  · exact claim_C7_egress_queue.2.2.2 Nat 3 [4]

/-- C8: querying a capability flag that was not registered by `New` yields
`nil` (`none`); there is no error channel in the signature. -/
theorem claim_C8_capability_unregistered (c : Nat)
    (h1 : c ≠ DeviceDiscoveryFlag) (h2 : c ≠ EnumerateDeviceFlag)
    (h3 : c ≠ LocalDebugFlag) (h4 : c ≠ HasProductInformationFlag)
    (h5 : c ≠ OnOffFlag) :
    zdaCapability c = none := by
  unfold DeviceDiscoveryFlag at h1
  unfold EnumerateDeviceFlag at h2
  unfold LocalDebugFlag at h3
  unfold HasProductInformationFlag at h4
  unfold OnOffFlag at h5
  simp only [zdaCapability, newCapabilities, alookup,
    DeviceDiscoveryFlag, EnumerateDeviceFlag, LocalDebugFlag,
    HasProductInformationFlag, OnOffFlag]
  rw [if_neg (fun hh => h1 hh.symm), if_neg (fun hh => h2 hh.symm),
    if_neg (fun hh => h3 hh.symm), if_neg (fun hh => h4 hh.symm),
    if_neg (fun hh => h5 hh.symm)]

/-- C8 witness: flag 42 is not registered. -/
theorem claim_C8_witness : zdaCapability 42 = none :=
  claim_C8_capability_unregistered 42 (by decide) (by decide) (by decide)
    (by decide) (by decide)

/-- C9: the product-information node-enumeration callback returns `nil` for
every input; read failures are logged, never returned. -/
theorem claim_C9_callback_returns_nil (n : InternalNode)
    (oracles : List (List ReadAttempt)) :
    (nodeEnumerationCallback n oracles).2 = none :=
  rfl

/-- C10: before `Start` the self device is the zero-valued `Device`; after
`Start` its identifier is the adapter IEEE address, its capability list is
exactly `[DeviceDiscoveryFlag]`, and its gateway back-reference is set. -/
theorem claim_C10_self_lifecycle :
    zdaSelf newGatewayState = zeroDevice
    ∧ zeroDevice.gatewaySet = false
    ∧ zeroDevice.identifier = Identifier.nilId
    ∧ zeroDevice.capabilities = []
    ∧ ∀ (g : GatewayState) (adapterIeee : Nat) (registerResult : Option String),
        (zdaSelf (startGateway g adapterIeee registerResult).1).gatewaySet = true
        ∧ (zdaSelf (startGateway g adapterIeee registerResult).1).identifier
            = Identifier.ieee adapterIeee
        ∧ (zdaSelf (startGateway g adapterIeee registerResult).1).capabilities
            = [DeviceDiscoveryFlag] :=
  ⟨rfl, rfl, rfl, rfl, fun _ _ _ => ⟨rfl, rfl, rfl⟩⟩

end Zda
